import Mathlib

/-!
Shallow embedding of the assay-cli request pipeline
(src/utils/apiClient.ts, src/utils/keychain.ts, src/types/config.ts,
src/commands/auth.ts) and proofs about its specification.

Conventions of the embedding:
* JavaScript `string | undefined` / `string | null` values become `Option String`;
  JavaScript truthiness on such a value (`if (x)`) is `jsTruthy`, which is false
  for both the missing value and the empty string.
* Millisecond timestamps (`Date.now()`, `new Date(s).getTime()`) are `Int`;
  the platform date parser `new Date(s).getTime()` is an arbitrary function
  parameter `parseDate : String → Int` where needed.
* The config file content is modelled at the JSON-value level: `Option Json`,
  where `none` is "file absent" and `some j` is "file present holding the JSON
  document j".  The platform text codec (`JSON.stringify` / `JSON.parse`) is a
  bijection between JSON values with ASCII strings and their serialized text,
  so it is modelled as the identity at this level; `JSON.stringify` field
  omission for `undefined` fields and field lookup on the parsed object are
  modelled explicitly (`encodeConfig`, `decodeConfig`).
* Terminal output (chalk colouring, exact message text) is abstracted to the
  structured message constructors `ExpMessage`; which message is produced, and
  the computed minute count inside it, are kept.
-/

/-- JavaScript truthiness of a `string | undefined | null` value:
`undefined`, `null` and `""` are falsy, every other string is truthy. -/
def jsTruthy : Option String → Bool
  | none => false
  | some s => !s.isEmpty

/-- JSON values (the result of `JSON.parse` on a valid document). -/
inductive Json where
  | null : Json
  | bool : Bool → Json
  | num : Int → Json
  | str : String → Json
  | arr : List Json → Json
  | obj : List (String × Json) → Json

/-- The runtime shape of a `Config` object (src/types/config.ts).  TypeScript
types are erased at runtime, so every field can be absent on a parsed value;
all four fields are therefore `Option String` here.  (`outputFormat` is the
string of the enum `json | table | yaml`.) -/
structure Config where
  keyId : Option String
  apiKeyExpiresAt : Option String
  baseUrl : Option String
  outputFormat : Option String
deriving Repr, DecidableEq

/-- Property access `obj[key]` on a parsed JSON object, returning the field
value when present and a string, and `none` otherwise (absent field, or a
non-string value where the code expects a string). -/
def getStrField (fields : List (String × Json)) (key : String) : Option String :=
  match fields with
  | [] => none
  | (k, v) :: rest =>
    if k = key then
      match v with
      | Json.str s => some s
      | _ => none
    else getStrField rest key

/-- One optional field of `JSON.stringify` output: an `undefined` field is
omitted from the serialized object. -/
def optField (key : String) : Option String → List (String × Json)
  | none => []
  | some s => [(key, Json.str s)]

/-- `JSON.stringify(config)` at the JSON-value level: the object serialized by
`saveConfig` (src/utils/apiClient.ts line 272), with `undefined` fields
omitted. -/
def encodeConfig (c : Config) : Json :=
  Json.obj (optField "keyId" c.keyId ++ optField "apiKeyExpiresAt" c.apiKeyExpiresAt
    ++ optField "baseUrl" c.baseUrl ++ optField "outputFormat" c.outputFormat)

/-- Reading the four `Config` fields off a parsed JSON document, as the
TypeScript code does after the unchecked cast `JSON.parse(content)` to
`Config`. -/
def decodeConfig (j : Json) : Config :=
  match j with
  | Json.obj fields =>
    { keyId := getStrField fields "keyId"
      apiKeyExpiresAt := getStrField fields "apiKeyExpiresAt"
      baseUrl := getStrField fields "baseUrl"
      outputFormat := getStrField fields "outputFormat" }
  | _ => { keyId := none, apiKeyExpiresAt := none, baseUrl := none, outputFormat := none }

/-- The hardcoded default returned by `loadConfig` when the config file is
absent (src/utils/apiClient.ts lines 243-249). -/
def defaultConfig : Config :=
  { keyId := none
    apiKeyExpiresAt := none
    baseUrl := some "https://us-east4-pdfsummaries.cloudfunctions.net/api"
    outputFormat := some "json" }

/-- `loadConfig` (src/utils/apiClient.ts lines 240-257): the default config
when the file is absent, else the parsed file content.  (The throw on a file
holding invalid JSON text is outside this model's domain: `Option Json` only
represents absent or syntactically valid files.) -/
def loadConfig (file : Option Json) : Config :=
  match file with
  | none => defaultConfig
  | some j => decodeConfig j

/-- `saveConfig` (src/utils/apiClient.ts lines 262-282): overwrite the config
file wholesale with the serialized config.  (Directory creation and the
best-effort chmod 600 have no effect on file content and are not modelled.) -/
def saveConfig (c : Config) (_file : Option Json) : Option Json :=
  some (encodeConfig c)

/-- Externally observable reads performed by credential resolution. -/
inductive Effect where
  | loadConfigFile
  | keychainGet
deriving Repr, DecidableEq

/-- The world state credential resolution runs against. -/
structure World where
  /-- `process.env.ASSAY_API_KEY` (`none` = unset). -/
  envAssayApiKey : Option String
  /-- `process.env.ASSAY_BASE_URL` (`none` = unset); never read by the client. -/
  envAssayBaseUrl : Option String
  /-- Content of `<configDir>/config.json`. -/
  configFile : Option Json
  /-- Whether the OS keychain is usable (`isKeychainAvailable`). -/
  keychainAvailable : Bool
  /-- The secret stored in the vault under (assay-cli, api-key-secret), if any. -/
  keychainSecret : Option String

/-- `getApiKeySecret` (src/utils/keychain.ts): `null` when the keychain is
unavailable, else the stored password or `null`; vault errors are swallowed
into `null`. -/
def getApiKeySecret (w : World) : Option String :=
  if w.keychainAvailable then w.keychainSecret else none

/-- `getApiKey` (src/utils/apiClient.ts lines 22-42) instrumented with the
trace of config-file and keychain reads it performs, in order.
JavaScript truthiness is kept: an env var or keyId or secret equal to `""` is
treated as missing by the guards `if (process.env.ASSAY_API_KEY)`,
`if (!config.keyId)`, `if (!keySecret)`. -/
def getApiKeyTr (w : World) : Option String × List Effect :=
  if jsTruthy w.envAssayApiKey then
    (w.envAssayApiKey, [])
  else
    let config := loadConfig w.configFile
    if !jsTruthy config.keyId then
      (none, [Effect.loadConfigFile])
    else
      let keySecret := getApiKeySecret w
      if !jsTruthy keySecret then
        (none, [Effect.loadConfigFile, Effect.keychainGet])
      else
        (some ("ask_live_" ++ config.keyId.getD "" ++ "_" ++ keySecret.getD ""),
          [Effect.loadConfigFile, Effect.keychainGet])

/-- The structured content of the expiration messages built by
`checkExpiration`; exact chalk-coloured text is abstracted away, the computed
minute count is kept. -/
inductive ExpMessage where
  | keyExpired
  | keyExpiresInMinutes (minutes : Int)
deriving Repr, DecidableEq

/-- Result of `checkExpiration`. -/
structure ExpirationCheck where
  expired : Bool
  expiringSoon : Bool
  message : Option ExpMessage
deriving Repr, DecidableEq

/-- `checkExpiration` (src/utils/apiClient.ts lines 47-75).  `parseDate`
stands for the platform `new Date(s).getTime()`; `now` for `Date.now()`.
The guard `if (!expiresAt)` sees both `undefined` and `""` as falsy. -/
def checkExpiration (parseDate : String → Int) (expiresAt : Option String) (now : Int) :
    ExpirationCheck :=
  if !jsTruthy expiresAt then
    { expired := false, expiringSoon := false, message := none }
  else
    let expires := parseDate (expiresAt.getD "")
    let diff := expires - now
    let thirtyMinutes : Int := 30 * 60 * 1000
    if diff ≤ 0 then
      { expired := true, expiringSoon := false, message := some ExpMessage.keyExpired }
    else if diff < thirtyMinutes then
      { expired := false, expiringSoon := true,
        message := some (ExpMessage.keyExpiresInMinutes (diff / (60 * 1000))) }
    else
      { expired := false, expiringSoon := false, message := none }

/-- Outcome of the request interceptor (src/utils/apiClient.ts lines 90-110)
for one outbound call: either an error is thrown locally — the request never
reaches the network — or the request proceeds to the network with the
`X-API-Key` header set, possibly after a console warning. -/
inductive InterceptOutcome where
  /-- `throw new Error("No API key found...")`: no HTTP request is sent. -/
  | thrownNoApiKey
  /-- `throw new Error(expirationCheck.message || ...)`: no HTTP request is sent. -/
  | thrownExpired (message : Option ExpMessage)
  /-- The request is dispatched with header `X-API-Key = apiKeyHeader`,
  after logging `warning` when it is present. -/
  | proceed (warning : Option ExpMessage) (apiKeyHeader : String)
deriving Repr, DecidableEq

/-- The request interceptor (src/utils/apiClient.ts lines 90-110): resolve the
credential, fail locally when none; check expiration from the loaded config,
fail locally when expired; warn when expiring soon; attach the header. -/
def requestInterceptor (parseDate : String → Int) (w : World) (now : Int) :
    InterceptOutcome :=
  match (getApiKeyTr w).1 with
  | none => InterceptOutcome.thrownNoApiKey
  | some apiKey =>
    let appConfig := loadConfig w.configFile
    let chk := checkExpiration parseDate appConfig.apiKeyExpiresAt now
    if chk.expired then
      InterceptOutcome.thrownExpired chk.message
    else
      InterceptOutcome.proceed
        (if chk.expiringSoon && chk.message.isSome then chk.message else none)
        apiKey

/-- One scripted outcome of dispatching the HTTP request once: axios resolves
with a 2xx response (abstract payload `resp`), or rejects with an error
carrying an optional HTTP status and optional `x-ratelimit-reset` header. -/
inductive Outcome where
  | ok (resp : Nat)
  | err (status : Option Nat) (resetHeader : Option Int)
deriving Repr, DecidableEq

/-- Final result of one logical request through the pipeline. -/
inductive PipelineResult where
  | success (resp : Nat)
  | failure (status : Option Nat) (resetHeader : Option Int)
  | outOfScript
deriving Repr, DecidableEq

/-- The response-interceptor retry loop (src/utils/apiClient.ts lines 124-142)
run against a script of network outcomes, one per attempt: on an error with
status 429 and `__retryCount < 3`, increment the counter and re-issue the
request; otherwise propagate.  Returns (number of attempts issued, final
result).  `retryCount` is the `__retryCount` stashed on the request config;
a fresh logical request has none, so it starts at 0. -/
def handleResponses (script : List Outcome) (retryCount : Nat) : Nat × PipelineResult :=
  match script with
  | [] => (0, PipelineResult.outOfScript)
  | Outcome.ok resp :: _ => (1, PipelineResult.success resp)
  | Outcome.err status resetHeader :: rest =>
    if status = some 429 then
      if retryCount < 3 then
        let r := handleResponses rest (retryCount + 1)
        (r.1 + 1, r.2)
      else (1, PipelineResult.failure status resetHeader)
    else (1, PipelineResult.failure status resetHeader)

/-- The rate-limit wait computation (src/utils/apiClient.ts lines 127-129):
`resetTime` from the parsed `x-ratelimit-reset` header (epoch seconds) or the
fixed fallback `now + 60000`, then `Math.max(Math.min(resetTime - now, 60000),
1000)`. -/
def rateLimitWaitMs (resetHeader : Option Int) (now : Int) : Int :=
  let resetTime : Int :=
    match resetHeader with
    | some r => r * 1000
    | none => now + 60000
  max (min (resetTime - now) 60000) 1000

/-- The compiled-in base URL (src/utils/apiClient.ts line 10). -/
def BASE_URL : String := "https://api.assay.cirrusly-clever.com"

/-- The axios configuration passed to `axios.create` (src/utils/apiClient.ts
lines 81-87). -/
structure AxiosClientConfig where
  baseURL : String
  timeoutMs : Nat
  contentType : String
deriving Repr, DecidableEq

/-- `createApiClient` client construction (src/utils/apiClient.ts lines
80-87): the code reads no environment variable and no config file here, so the
result is the same for every world. -/
def createApiClientConfig (_w : World) : AxiosClientConfig :=
  { baseURL := BASE_URL, timeoutMs := 30000, contentType := "application/json" }

/-- What the login command persists (src/commands/auth.ts lines 109-114):
load the config, set keyId and apiKeyExpiresAt from the validated key, set
baseUrl to the hardcoded endpoint, save. -/
def loginPersist (keyId : String) (expiresAt : Option String) (file : Option Json) :
    Option Json :=
  let config := loadConfig file
  saveConfig
    { config with
      keyId := some keyId
      apiKeyExpiresAt := expiresAt
      baseUrl := some "https://us-east4-pdfsummaries.cloudfunctions.net/api" }
    file

/-- A character is ASCII when its code point is below 128. -/
def isAsciiChar (ch : Char) : Bool :=
  decide (ch.toNat < 128)

/-- A string all of whose characters are ASCII. -/
def isAsciiString (s : String) : Bool :=
  s.data.all isAsciiChar

/-- An optional string field whose value, when present, is ASCII. -/
def isAsciiOpt : Option String → Bool
  | none => true
  | some s => isAsciiString s

/-- A config all of whose string fields are ASCII (the hypothesis of the
spec's round-trip property: for such configs the platform JSON text codec is
a bijection, which the JSON-value-level model relies on). -/
def Config.isAscii (c : Config) : Bool :=
  isAsciiOpt c.keyId && isAsciiOpt c.apiKeyExpiresAt && isAsciiOpt c.baseUrl
    && isAsciiOpt c.outputFormat

/-- A world where `ASSAY_API_KEY` is set — to the empty string — while the
config file holds a keyId and the vault holds a secret. -/
def emptyEnvKeyWorld : World :=
  { envAssayApiKey := some ""
    envAssayBaseUrl := none
    configFile := some (Json.obj [("keyId", Json.str "abc123")])
    keychainAvailable := true
    keychainSecret := some "s3cret" }

/-! ## Theorems -/

/-- C1: a request answered by three consecutive 429 responses and then a 200
issues exactly 4 attempts and returns the 200 result; a request answered by
four consecutive 429 responses issues exactly 4 attempts and propagates the
final 429 error.  The retry counter of a fresh logical request starts at 0. -/
theorem retry_four_attempts (h1 h2 h3 h4 : Option Int) (resp : Nat)
    (rest : List Outcome) :
    handleResponses (Outcome.err (some 429) h1 :: Outcome.err (some 429) h2 ::
        Outcome.err (some 429) h3 :: Outcome.ok resp :: rest) 0
      = (4, PipelineResult.success resp)
    ∧ handleResponses (Outcome.err (some 429) h1 :: Outcome.err (some 429) h2 ::
        Outcome.err (some 429) h3 :: Outcome.err (some 429) h4 :: rest) 0
      = (4, PipelineResult.failure (some 429) h4) := by
  constructor <;> rfl

/-- C2: the computed rate-limit wait always lies in [1000 ms, 60000 ms], for
every reset header (including one implying a 10-minute wait or one in the
past), and an absent header yields the fixed fallback `now + 60000`, which
after clamping is exactly 60000 ms. -/
theorem rateLimitWait_clamped (resetHeader : Option Int) (now : Int) :
    1000 ≤ rateLimitWaitMs resetHeader now
    ∧ rateLimitWaitMs resetHeader now ≤ 60000
    ∧ rateLimitWaitMs none now = 60000 := by
  refine ⟨?_, ?_, ?_⟩ <;> cases resetHeader <;> simp [rateLimitWaitMs]

/-- C9: when the config file is absent, `loadConfig` returns exactly the
hardcoded default: the default base URL, output format json, and no keyId or
expiration timestamp. -/
theorem loadConfig_absent_default :
    loadConfig none
      = { keyId := none
          apiKeyExpiresAt := none
          baseUrl := some "https://us-east4-pdfsummaries.cloudfunctions.net/api"
          outputFormat := some "json" } := rfl

/-- C10: every request pipeline client is bound to the compiled-in base URL,
for every world — in particular after the login command persists its baseUrl
into the config file, and whatever `ASSAY_BASE_URL` is set to. -/
theorem client_baseURL_fixed (w : World) (keyId u : String)
    (expiresAt : Option String) :
    (createApiClientConfig w).baseURL = "https://api.assay.cirrusly-clever.com"
    ∧ (createApiClientConfig
        { w with configFile := loginPersist keyId expiresAt w.configFile }).baseURL
      = "https://api.assay.cirrusly-clever.com"
    ∧ (createApiClientConfig { w with envAssayBaseUrl := some u }).baseURL
      = "https://api.assay.cirrusly-clever.com" :=
  ⟨rfl, rfl, rfl⟩

/-- A string different from `""` is not empty (bridge between the JS
truthiness guard and string equality). -/
theorem isEmpty_false_of_ne (s : String) (h : s ≠ "") : s.isEmpty = false := by
  cases hx : s.isEmpty with
  | false => rfl
  | true => exact absurd ((String.isEmpty_iff s).mp hx) h

/-- Characterization of `checkExpiration` on a present, non-empty timestamp
string: the three-way split on `diff = parseDate s - now`. -/
theorem checkExpiration_some_eq (parseDate : String → Int) (s : String) (now : Int)
    (hs : s.isEmpty = false) :
    checkExpiration parseDate (some s) now
      = (if parseDate s - now ≤ 0 then
          { expired := true, expiringSoon := false, message := some ExpMessage.keyExpired }
        else if parseDate s - now < 30 * 60 * 1000 then
          { expired := false, expiringSoon := true,
            message := some (ExpMessage.keyExpiresInMinutes ((parseDate s - now) / (60 * 1000))) }
        else
          { expired := false, expiringSoon := false, message := none }) := by
  simp [checkExpiration, jsTruthy, hs]

/-- Whenever `checkExpiration` reports `expiringSoon`, it also carries a
warning message. -/
theorem checkExpiration_message_of_soon (parseDate : String → Int)
    (expiresAt : Option String) (now : Int) :
    (checkExpiration parseDate expiresAt now).expiringSoon = true →
    (checkExpiration parseDate expiresAt now).message.isSome = true := by
  unfold checkExpiration
  split_ifs with h1
  · simp
  · dsimp only
    split_ifs with h2 h3 <;> simp

/-- C3: `checkExpiration` on an absent timestamp is false/false; on a present
timestamp parsing to `t`: expired=true whenever `t` is at or before `now`,
expired=false and expiringSoon=true whenever `t` is 1 to 29 minutes in the
future, and false/false whenever `t` is more than 30 minutes in the future. -/
theorem checkExpiration_spec (parseDate : String → Int) (s : String) (now t : Int)
    (hs : s ≠ "") (ht : parseDate s = t) :
    checkExpiration parseDate none now
      = { expired := false, expiringSoon := false, message := none }
    ∧ (t ≤ now → (checkExpiration parseDate (some s) now).expired = true)
    ∧ (now + 60000 ≤ t → t ≤ now + 29 * 60000 →
        (checkExpiration parseDate (some s) now).expired = false
        ∧ (checkExpiration parseDate (some s) now).expiringSoon = true)
    ∧ (now + 30 * 60000 < t →
        (checkExpiration parseDate (some s) now).expired = false
        ∧ (checkExpiration parseDate (some s) now).expiringSoon = false) := by
  rw [checkExpiration_some_eq parseDate s now (isEmpty_false_of_ne s hs), ht]
  refine ⟨by simp [checkExpiration, jsTruthy], ?_, ?_, ?_⟩
  · intro h
    rw [if_pos (by omega)]
  · intro h1 h2
    rw [if_neg (by omega), if_pos (by omega)]
    exact ⟨rfl, rfl⟩
  · intro h1
    rw [if_neg (by omega), if_neg (by omega)]
    exact ⟨rfl, rfl⟩

/-- Witness for C3 at concrete inputs: now = 1000; an expired key (t = 500),
one expiring in 2 minutes (t = 121000), one more than 30 minutes out
(t = 3000000), and an absent timestamp. -/
theorem checkExpiration_spec_witness :
    (checkExpiration (fun _ => 500) (some "x") 1000).expired = true
    ∧ (checkExpiration (fun _ => 121000) (some "x") 1000).expiringSoon = true
    ∧ (checkExpiration (fun _ => 3000000) (some "x") 1000).expiringSoon = false
    ∧ checkExpiration (fun _ => 0) none 1000
        = { expired := false, expiringSoon := false, message := none } := by
  refine ⟨?_, ?_, ?_, ?_⟩
  · exact (checkExpiration_spec (fun _ => 500) "x" 1000 500 (by decide) rfl).2.1
      (by norm_num)
  · exact ((checkExpiration_spec (fun _ => 121000) "x" 1000 121000 (by decide) rfl).2.2.1
      (by norm_num) (by norm_num)).2
  · exact ((checkExpiration_spec (fun _ => 3000000) "x" 1000 3000000 (by decide) rfl).2.2.2
      (by norm_num)).2
  · exact (checkExpiration_spec (fun _ => 0) "x" 1000 0 (by decide) rfl).1

/-- C4: before an outbound call, the request interceptor fails the call
locally (throws, so no HTTP request is sent) when no credential resolves or
when the resolved credential is expired; when the credential is only expiring
soon, it logs the warning and the request proceeds to the network with the
credential attached as the X-API-Key header. -/
theorem requestInterceptor_spec (parseDate : String → Int) (w : World) (now : Int) :
    ((getApiKeyTr w).1 = none →
      requestInterceptor parseDate w now = InterceptOutcome.thrownNoApiKey)
    ∧ (∀ k, (getApiKeyTr w).1 = some k →
        (checkExpiration parseDate (loadConfig w.configFile).apiKeyExpiresAt now).expired
          = true →
        requestInterceptor parseDate w now
          = InterceptOutcome.thrownExpired
              (checkExpiration parseDate (loadConfig w.configFile).apiKeyExpiresAt
                now).message)
    ∧ (∀ k, (getApiKeyTr w).1 = some k →
        (checkExpiration parseDate (loadConfig w.configFile).apiKeyExpiresAt now).expired
          = false →
        (checkExpiration parseDate (loadConfig w.configFile).apiKeyExpiresAt
            now).expiringSoon = true →
        requestInterceptor parseDate w now
          = InterceptOutcome.proceed
              (checkExpiration parseDate (loadConfig w.configFile).apiKeyExpiresAt
                now).message k) := by
  refine ⟨?_, ?_, ?_⟩
  · intro h
    unfold requestInterceptor
    rw [h]
  · intro k hk hexp
    unfold requestInterceptor
    rw [hk]
    simp [hexp]
  · intro k hk hexp hsoon
    have hmsg := checkExpiration_message_of_soon parseDate
      (loadConfig w.configFile).apiKeyExpiresAt now hsoon
    unfold requestInterceptor
    rw [hk]
    simp [hexp, hsoon, hmsg]

/-- Witness for C4 at concrete worlds: no resolvable credential; an expired
credential (the env key "k", config expiration parsing to 0 at now = 100); an
expiring-soon credential (expiration parsing to 120100 at now = 100, so a
2-minute warning) that proceeds with the header attached. -/
theorem requestInterceptor_spec_witness :
    requestInterceptor (fun _ => 0)
        { envAssayApiKey := none, envAssayBaseUrl := none, configFile := none,
          keychainAvailable := false, keychainSecret := none } 100
      = InterceptOutcome.thrownNoApiKey
    ∧ requestInterceptor (fun _ => 0)
        { envAssayApiKey := some "k", envAssayBaseUrl := none,
          configFile := some (Json.obj [("apiKeyExpiresAt", Json.str "2020-01-01")]),
          keychainAvailable := false, keychainSecret := none } 100
      = InterceptOutcome.thrownExpired (some ExpMessage.keyExpired)
    ∧ requestInterceptor (fun _ => 120100)
        { envAssayApiKey := some "k", envAssayBaseUrl := none,
          configFile := some (Json.obj [("apiKeyExpiresAt", Json.str "2020-01-01")]),
          keychainAvailable := false, keychainSecret := none } 100
      = InterceptOutcome.proceed (some (ExpMessage.keyExpiresInMinutes 2)) "k" := by
  refine ⟨?_, ?_, ?_⟩
  · exact (requestInterceptor_spec (fun _ => 0)
      { envAssayApiKey := none, envAssayBaseUrl := none, configFile := none,
        keychainAvailable := false, keychainSecret := none } 100).1 rfl
  · exact ((requestInterceptor_spec (fun _ => 0)
      { envAssayApiKey := some "k", envAssayBaseUrl := none,
        configFile := some (Json.obj [("apiKeyExpiresAt", Json.str "2020-01-01")]),
        keychainAvailable := false, keychainSecret := none } 100).2.1 "k"
      (by decide) (by decide)).trans (by decide)
  · exact ((requestInterceptor_spec (fun _ => 120100)
      { envAssayApiKey := some "k", envAssayBaseUrl := none,
        configFile := some (Json.obj [("apiKeyExpiresAt", Json.str "2020-01-01")]),
        keychainAvailable := false, keychainSecret := none } 100).2.2 "k"
      (by decide) (by decide) (by decide)).trans (by decide)

/-- Counterexample to C5 as stated: with `ASSAY_API_KEY` set to `""`, the
guard `if (process.env.ASSAY_API_KEY)` is falsy, so resolution does not
return the variable's value verbatim — it falls through, reads the config
file and the vault, and returns the recomposed key. -/
theorem envKey_set_counterexample :
    emptyEnvKeyWorld.envAssayApiKey = some ""
    ∧ (getApiKeyTr emptyEnvKeyWorld).1 ≠ some ""
    ∧ (getApiKeyTr emptyEnvKeyWorld).1 = some "ask_live_abc123_s3cret"
    ∧ Effect.keychainGet ∈ (getApiKeyTr emptyEnvKeyWorld).2 := by
  refine ⟨rfl, by decide, by decide, by decide⟩

/-- C5 amended: whenever `ASSAY_API_KEY` is set to a non-empty string,
credential resolution returns that value verbatim and performs no read of the
config file or the secret store. -/
theorem envKey_nonempty_verbatim (w : World) (k : String)
    (h1 : w.envAssayApiKey = some k) (h2 : k ≠ "") :
    getApiKeyTr w = (some k, []) := by
  unfold getApiKeyTr
  rw [h1]
  simp [jsTruthy, isEmpty_false_of_ne k h2]

/-- Witness for the amended C5: the env var set to a full key wins even with a
conflicting config file and vault secret present. -/
theorem envKey_nonempty_verbatim_witness :
    getApiKeyTr
        { envAssayApiKey := some "ask_live_zzz_topsecret"
          envAssayBaseUrl := none
          configFile := some (Json.obj [("keyId", Json.str "abc123")])
          keychainAvailable := true
          keychainSecret := some "s3cret" }
      = (some "ask_live_zzz_topsecret", []) :=
  envKey_nonempty_verbatim _ "ask_live_zzz_topsecret" rfl (by decide)

/-- C6: with `ASSAY_API_KEY` unset and a loaded config carrying no keyId,
resolution returns null having read only the config file — the vault is never
queried. -/
theorem noKeyId_null_no_vault (w : World)
    (h1 : w.envAssayApiKey = none)
    (h2 : (loadConfig w.configFile).keyId = none) :
    (getApiKeyTr w).1 = none
    ∧ Effect.keychainGet ∉ (getApiKeyTr w).2 := by
  unfold getApiKeyTr
  rw [h1]
  simp [jsTruthy, h2]

/-- Witness for C6: empty config directory (default config has no keyId) with
a populated vault; resolution is null and the vault is untouched. -/
theorem noKeyId_null_no_vault_witness :
    (getApiKeyTr
        { envAssayApiKey := none, envAssayBaseUrl := none, configFile := none,
          keychainAvailable := true, keychainSecret := some "s3cret" }).1 = none
    ∧ Effect.keychainGet ∉ (getApiKeyTr
        { envAssayApiKey := none, envAssayBaseUrl := none, configFile := none,
          keychainAvailable := true, keychainSecret := some "s3cret" }).2 :=
  noKeyId_null_no_vault _ rfl rfl

/-- C7: with `ASSAY_API_KEY` unset, a loaded config holding a keyId, and the
secret store returning a secret, resolution returns
`"ask_live_" ++ keyId ++ "_" ++ secret`. -/
theorem recomposed_key (w : World) (keyId secret : String)
    (h1 : w.envAssayApiKey = none)
    (h2 : (loadConfig w.configFile).keyId = some keyId) (h3 : keyId ≠ "")
    (h4 : getApiKeySecret w = some secret) (h5 : secret ≠ "") :
    (getApiKeyTr w).1 = some ("ask_live_" ++ keyId ++ "_" ++ secret) := by
  unfold getApiKeyTr
  rw [h1]
  simp [jsTruthy, h2, h4, isEmpty_false_of_ne keyId h3, isEmpty_false_of_ne secret h5]

/-- Witness for C7 at the spec's scenario: keyId "abc123" and secret "s3cret"
resolve to "ask_live_abc123_s3cret". -/
theorem recomposed_key_witness :
    (getApiKeyTr
        { envAssayApiKey := none, envAssayBaseUrl := none,
          configFile := some (Json.obj [("keyId", Json.str "abc123")]),
          keychainAvailable := true, keychainSecret := some "s3cret" }).1
      = some "ask_live_abc123_s3cret" :=
  (recomposed_key
      { envAssayApiKey := none, envAssayBaseUrl := none,
        configFile := some (Json.obj [("keyId", Json.str "abc123")]),
        keychainAvailable := true, keychainSecret := some "s3cret" }
      "abc123" "s3cret" rfl (by decide) (by decide) rfl (by decide)).trans
    (by decide)

/-- C8: saving a config with ASCII string fields and then loading yields an
equal config, field for field. -/
theorem save_load_roundtrip (c : Config) (file : Option Json)
    (h : c.isAscii = true) :
    loadConfig (saveConfig c file) = c := by
  rcases c with ⟨kid, exp, burl, ofmt⟩
  cases kid <;> cases exp <;> cases burl <;> cases ofmt <;> rfl

/-- Witness for C8 at a fully populated ASCII config. -/
theorem save_load_roundtrip_witness :
    loadConfig (saveConfig
        { keyId := some "abc123"
          apiKeyExpiresAt := some "2025-06-01T12:00:00Z"
          baseUrl := some "https://us-east4-pdfsummaries.cloudfunctions.net/api"
          outputFormat := some "json" } none)
      = { keyId := some "abc123"
          apiKeyExpiresAt := some "2025-06-01T12:00:00Z"
          baseUrl := some "https://us-east4-pdfsummaries.cloudfunctions.net/api"
          outputFormat := some "json" } :=
  save_load_roundtrip _ none (by decide)
